import Mathlib

/-
Shallow embedding of django-easy-audit's change-detection and dispatch core:
  src/easyaudit/utils.py          (field selection, value normalization, delta)
  src/easyaudit/signals/crud_flows.py (flows, m2m snapshot cache, actor lookup)

Python exceptions are modelled with `Except Exc`; Django, pint and the cache
backend are external collaborators and appear as oracles (function-typed
environment fields) or small faithful models of their documented behavior.
-/

namespace EasyAudit

/-- Exceptions that the embedded code can raise or catch.  `objectDoesNotExist`
models `django.core.exceptions.ObjectDoesNotExist`; every other exception class
(AttributeError, ValidationError, pint's DimensionalityError, database errors
injected into the sink write, ...) is carried as `other` with a tag string,
since the code under analysis never catches those individually. -/
inductive Exc where
  | objectDoesNotExist : Exc
  | other : String → Exc
deriving DecidableEq

/-- Python runtime values that flow through `get_field_value` / `model_delta`.
Datetimes are minutes-since-epoch wall-clock integers; an aware datetime
carries its UTC offset in minutes, so its instant is `minutes - offset`.
A pint quantity is a magnitude with a unit tag. -/
inductive PyVal where
  | pyNone : PyVal
  | pyStr : String → PyVal
  | pyInt : Int → PyVal
  | dtNaive : Int → PyVal
  | dtAware : Int → Int → PyVal
  | quantity : Int → String → PyVal
deriving DecidableEq

/-- Python `==` on the modelled values.  Two aware datetimes compare equal when
they denote the same instant (Python compares aware datetimes by instant);
a naive and an aware datetime compare unequal, as do values of different
types; everything else is structural. -/
def pyEq : PyVal → PyVal → Bool
  | PyVal.dtAware n o, PyVal.dtAware m p => n - o == m - p
  | a, b => a == b

/-- Django's `smart_str` on the modelled values: best-effort `str()` form.
`None` renders as the string "None" (exactly as in Python). -/
def smartStr : PyVal → String
  | PyVal.pyNone => "None"
  | PyVal.pyStr s => s
  | PyVal.pyInt n => toString n
  | PyVal.dtNaive m => String.append ("datetime(") (String.append (toString m) (")"))
  | PyVal.dtAware m o =>
      String.append ("datetime(") (String.append (toString m)
        (String.append (", tz=") (String.append (toString o) (")"))))
  | PyVal.quantity m u => String.append (toString m) (String.append (" ") u)

/-- Django settings consulted by the embedded code.  `Option.none` in the two
optional fields models the setting being absent, so `getattr(settings, _, d)`
falls back to the default `d`. -/
structure Settings where
  propagateExceptions : Option Bool
  checkRequestUserExists : Option Bool
  useTz : Bool

/-- Embeds `should_propagate_exceptions` (utils.py:197-202):
`getattr(settings, "DJANGO_EASY_AUDIT_PROPAGATE_EXCEPTIONS", False)`. -/
def should_propagate_exceptions (s : Settings) : Bool :=
  s.propagateExceptions.getD false

/-- Embeds `getattr(settings, "DJANGO_EASY_AUDIT_CHECK_IF_REQUEST_USER_EXISTS",
True)` from crud_flows.py:35. -/
def check_if_request_user_exists (s : Settings) : Bool :=
  s.checkRequestUserExists.getD true

/-- Environment for `get_field_value`: whether pint is importable, and pint's
`Quantity.to` conversion as an oracle (it may raise, e.g. DimensionalityError
on incompatible units), returning the converted magnitude and unit. -/
structure Env where
  pintInstalled : Bool
  pintTo : Int → String → String → Except Exc (Int × String)

/-- A Django model field as used by utils.py: its name, whether it is a
`DateTimeField`, its declared default (`Option.none` models `NOT_PROVIDED`),
and its `units` attribute when it is a pint field (`Option.none` models the
attribute being absent, so `field.units` raises AttributeError). -/
structure DField where
  name : String
  isDateTime : Bool
  defaultVal : Option PyVal
  units : Option String

/-- A model instance's attribute-read behavior: the outcome of
`getattr(obj, name, None)`, which may raise (e.g. a related-object descriptor
raising ObjectDoesNotExist) or produce a value. -/
structure PyObj where
  readAttr : String → Except Exc PyVal

/-- Checks `not timezone.is_naive(value)` on a modelled value. -/
def isAware : PyVal → Bool
  | PyVal.dtAware _ _ => true
  | _ => false

/-- Embeds `timezone.make_naive(value, timezone=dt.timezone.utc)`: an aware
datetime becomes the naive UTC instant; other values are untouched. -/
def makeNaiveUtc : PyVal → PyVal
  | PyVal.dtAware m o => PyVal.dtNaive (m - o)
  | v => v

/-- Models Django's `DateTimeField.to_python`: passes `None` and datetimes
through unchanged and raises ValidationError on values it cannot interpret
as datetimes (well-formed date strings, which it would parse, are outside
the modelled value universe; no claim involves them). -/
def dateTimeFieldToPython : PyVal → Except Exc PyVal
  | PyVal.pyNone => Except.ok PyVal.pyNone
  | PyVal.dtNaive m => Except.ok (PyVal.dtNaive m)
  | PyVal.dtAware m o => Except.ok (PyVal.dtAware m o)
  | _ => Except.error (Exc.other ("ValidationError"))

/-- The body of the DateTimeField branch of `get_field_value` (utils.py:73):
`field.to_python(getattr(obj, field.name, None))`, before tz-normalization. -/
def dt_read (obj : PyObj) (field : DField) : Except Exc PyVal :=
  match obj.readAttr field.name with
  | Except.error e => Except.error e
  | Except.ok raw => dateTimeFieldToPython raw

/-- Checks whether a value is a pint Quantity (`isinstance(value, Quantity)`). -/
def isQuantity : PyVal → Bool
  | PyVal.quantity _ _ => true
  | _ => false

/-- The inner try of the scalar branch of `get_field_value` (utils.py:81-87):
if pint imports, read the attribute and convert a Quantity to `field.units`
(reading a missing `units` attribute raises AttributeError, and the conversion
itself may raise); on ModuleNotFoundError (pint absent) fall back to
`smart_str(getattr(obj, field.name, None))`. -/
def pint_read (env : Env) (obj : PyObj) (field : DField) : Except Exc PyVal :=
  if env.pintInstalled then
    match obj.readAttr field.name with
    | Except.error e => Except.error e
    | Except.ok (PyVal.quantity m u) =>
      match field.units with
      | some targetUnits =>
        match env.pintTo m u targetUnits with
        | Except.error e => Except.error e
        | Except.ok r => Except.ok (PyVal.quantity r.1 r.2)
      | Option.none => Except.error (Exc.other ("AttributeError"))
    | Except.ok v => Except.ok v
  else
    match obj.readAttr field.name with
    | Except.error e => Except.error e
    | Except.ok v => Except.ok (PyVal.pyStr (smartStr v))

/-- Embeds `get_field_value` (utils.py:59-94).  DateTimeField branch: read and
`to_python` the value, make aware values naive-UTC when USE_TZ; on
ObjectDoesNotExist fall back to the field default or None.  Scalar branch:
the pint-aware read followed by `smart_str`, with the same ObjectDoesNotExist
fallback.  Any other exception propagates (only ObjectDoesNotExist is
caught in the source). -/
def get_field_value (s : Settings) (env : Env) (obj : PyObj) (field : DField) :
    Except Exc PyVal :=
  if field.isDateTime then
    match dt_read obj field with
    | Except.ok v =>
      Except.ok
        (if v != PyVal.pyNone && s.useTz && isAware v then makeNaiveUtc v else v)
    | Except.error Exc.objectDoesNotExist =>
      Except.ok (field.defaultVal.getD PyVal.pyNone)
    | Except.error e => Except.error e
  else
    match pint_read env obj field with
    | Except.ok v => Except.ok (PyVal.pyStr (smartStr v))
    | Except.error Exc.objectDoesNotExist =>
      Except.ok (field.defaultVal.getD PyVal.pyNone)
    | Except.error e => Except.error e

/-- A Django model (class together with one instance's attribute state) as
consumed by utils.py: `_meta.get_fields()` (all fields including relations,
used by `model_delta`), `_meta.fields` (direct concrete fields, used by the
wildcard expansion in `get_audit_log_fields`), the optional `audit_log_fields`
and `audit_log_fields_exclude` class attributes (`Option.none` models
`hasattr` being false), and the instance's attribute reads. -/
structure DModel where
  metaGetFields : List DField
  metaFields : List DField
  auditLogFields : Option (List String)
  auditLogFieldsExclude : Option (List String)
  obj : PyObj

/-- Embeds `get_audit_log_fields` (utils.py:13-48): start from the declared
`audit_log_fields` (or the singleton wildcard set when absent), expand a
literal "*" into all direct model fields and drop the "*", then subtract the
declared exclusion set. -/
def get_audit_log_fields (m : DModel) : Finset String :=
  let incl0 : Finset String :=
    match m.auditLogFields with
    | some fs => fs.toFinset
    | Option.none => {"*"}
  let incl : Finset String :=
    if ("*") ∈ incl0 then
      (incl0 ∪ (m.metaFields.map DField.name).toFinset).erase ("*")
    else incl0
  let excl : Finset String :=
    match m.auditLogFieldsExclude with
    | some fs => fs.toFinset
    | Option.none => ∅
  incl \ excl

/-- The field list actually iterated by `model_delta` (utils.py:111-115):
all of `new_model._meta.get_fields()`, filtered by the exclusion attribute
when that attribute exists.  The `audit_log_fields` inclusion list plays no
part here. -/
def delta_fields (m : DModel) : List DField :=
  match m.auditLogFieldsExclude with
  | some excl => m.metaGetFields.filter (fun f => !(excl.contains f.name))
  | Option.none => m.metaGetFields

/-- The loop of `model_delta` (utils.py:117-121): for each field read both
values (any uncaught exception from `get_field_value` propagates) and record
`[smart_str(old), smart_str(new)]` under the field name when the values are
unequal, preserving field order. -/
def model_delta_entries (s : Settings) (env : Env) (oldObj newObj : PyObj) :
    List DField → Except Exc (List (String × String × String))
  | [] => Except.ok []
  | f :: fs =>
    match get_field_value s env oldObj f with
    | Except.error e => Except.error e
    | Except.ok oldValue =>
      match get_field_value s env newObj f with
      | Except.error e => Except.error e
      | Except.ok newValue =>
        match model_delta_entries s env oldObj newObj fs with
        | Except.error e => Except.error e
        | Except.ok rest =>
          Except.ok
            (if pyEq oldValue newValue then rest
             else (f.name, smartStr oldValue, smartStr newValue) :: rest)

/-- Embeds `model_delta` (utils.py:97-133): iterate the (exclusion-filtered)
fields of the new model, collect changed entries in order, and collapse an
empty result to `None` (utils.py:130-131). -/
def model_delta (s : Settings) (env : Env) (old_model new_model : DModel) :
    Except Exc (Option (List (String × String × String))) :=
  match model_delta_entries s env old_model.obj new_model.obj
      (delta_fields new_model) with
  | Except.error e => Except.error e
  | Except.ok entries =>
    Except.ok (if entries.isEmpty then Option.none else some entries)

/-- Python's `str.removeprefix`: drop `pre` from the front of `str` when it is
a prefix, otherwise return `str` unchanged. -/
def removePre (str pre : String) : String :=
  if pre.data.isPrefixOf str.data then String.mk (str.data.drop pre.data.length)
  else str

/-- The phase normalization inside `_cache_key` (crud_flows.py:115):
`action.removeprefix("pre_").removeprefix("post_")`. -/
def strip_phase (action : String) : String :=
  removePre (removePre action ("pre_")) ("post_")

/-- Embeds `_cache_key` (crud_flows.py:114-116): the f-string
`{class_name}_{pk}_{field_name}_{stripped_action}`, with the class name and
pk already rendered to strings as the f-string does. -/
def cache_key (className pkStr fieldName action : String) : String :=
  className ++ "_" ++ pkStr ++ "_" ++ fieldName ++ "_" ++ strip_phase action

/-- The cache backend state: most-recent-first association list of keys to the
stored member-value lists (member values abstracted as integers; the TTL is
not modelled — an expired entry behaves exactly like an absent one). -/
abbrev Cache := List (String × List Int)

/-- Models `cache.set(key, value, timeout)`. -/
def cache_set (c : Cache) (key : String) (value : List Int) : Cache :=
  (key, value) :: c

/-- Models `cache.get(key)`: the stored value, or Python `None` (here
`Option.none`) when the key is absent or expired. -/
def cache_get : Cache → String → Option (List Int)
  | [], _ => Option.none
  | (k, v) :: rest, key => if k == key then some v else cache_get rest key

/-- Embeds `cache_m2m_field` (crud_flows.py:118-123) with the ORM-derived
`get_m2m_field_values` result passed in as `fieldValues`: store every
field's current member-value list under its cache key. -/
def cache_m2m_field (c : Cache) (className pkStr action : String)
    (fieldValues : List (String × List Int)) : Cache :=
  fieldValues.foldl
    (fun acc fv => cache_set acc (cache_key className pkStr fv.1 action) fv.2) c

/-- Embeds `get_cached_m2m_field` (crud_flows.py:126-131): for each requested
field, look its key up in the cache; a missing key yields Python `None`. -/
def get_cached_m2m_field (c : Cache) (className pkStr : String)
    (fields : List String) (action : String) :
    List (String × Option (List Int)) :=
  fields.map (fun f => (f, cache_get c (cache_key className pkStr f action)))

/-- The `changed_fields` payload logged by `m2m_changed_crud_flow`: either the
literal Python empty list `[]` (the `post_clear` branch, crud_flows.py:139) or
the JSON dump of `{m2m_field_name: [old_values, new_values]}` built in the
other branch (crud_flows.py:142-149), kept structured rather than as the
serialized string. -/
inductive ChangedFields where
  | emptyList : ChangedFields
  | deltaJson : String → List (String × Option (List Int)) →
      List (String × List Int) → ChangedFields
deriving DecidableEq

/-- The changed-fields computation inside `m2m_changed_crud_flow`
(crud_flows.py:138-149): `post_clear` short-circuits to the empty list with no
cache access; otherwise the new member values are read from the ORM (an
oracle here, which may raise) and the old values come from the snapshot
cache under the same stripped-phase keys. -/
def m2m_changed_fields (cache : Cache) (action className pkStr m2mName : String)
    (newValuesAttempt : Except Exc (List (String × List Int))) :
    Except Exc ChangedFields :=
  if action == "post_clear" then Except.ok ChangedFields.emptyList
  else
    match newValuesAttempt with
    | Except.error e => Except.error e
    | Except.ok newValues =>
      Except.ok
        (ChangedFields.deltaJson m2mName
          (get_cached_m2m_field cache className pkStr (newValues.map Prod.fst)
            action)
          newValues)

/-- Embeds `handle_flow_exception` (crud_flows.py:61-70): build the log line
(the instance context string is itself computed under `contextlib.suppress`,
degrading to the empty string), then re-raise the pending exception exactly
when `should_propagate_exceptions()` holds.  Returns the log message and the
outcome. -/
def handle_flow_exception (instanceStrAttempt : Except Exc String)
    (signal : String) (s : Settings) (e : Exc) : String × Except Exc Unit :=
  let instanceStr :=
    match instanceStrAttempt with
    | Except.ok str => str
    | Except.error _ => ""
  (String.append ("easy audit had a ")
      (String.append signal
        (String.append (" exception on CRUDEvent creation.") instanceStr)),
   if should_propagate_exceptions s then Except.error e else Except.ok ())

/-- Embeds `pre_save_crud_flow` (crud_flows.py:73-83) with the body
(`log_event`, i.e. assembly plus sink write) abstracted to its outcome:
on failure, delegate to `handle_flow_exception`.  The first component is the
log line emitted, when one is. -/
def pre_save_crud_flow (logEventResult : Except Exc Unit)
    (instanceStrAttempt : Except Exc String) (s : Settings) :
    Option String × Except Exc Unit :=
  match logEventResult with
  | Except.ok _ => (Option.none, Except.ok ())
  | Except.error e =>
    let r := handle_flow_exception instanceStrAttempt ("pre_save") s e
    (some r.1, r.2)

/-- Embeds `post_save_crud_flow` (crud_flows.py:86-95). -/
def post_save_crud_flow (logEventResult : Except Exc Unit)
    (instanceStrAttempt : Except Exc String) (s : Settings) :
    Option String × Except Exc Unit :=
  match logEventResult with
  | Except.ok _ => (Option.none, Except.ok ())
  | Except.error e =>
    let r := handle_flow_exception instanceStrAttempt ("post_save") s e
    (some r.1, r.2)

/-- Embeds `post_delete_crud_flow` (crud_flows.py:165-175). -/
def post_delete_crud_flow (logEventResult : Except Exc Unit)
    (instanceStrAttempt : Except Exc String) (s : Settings) :
    Option String × Except Exc Unit :=
  match logEventResult with
  | Except.ok _ => (Option.none, Except.ok ())
  | Except.error e =>
    let r := handle_flow_exception instanceStrAttempt ("post_delete") s e
    (some r.1, r.2)

/-- Embeds `m2m_changed_crud_flow` (crud_flows.py:134-162): compute the
changed-fields payload, pass it to `log_event` (abstracted as `logEvent`),
and route any exception from either step through `handle_flow_exception`. -/
def m2m_changed_crud_flow (cache : Cache)
    (action className pkStr m2mName : String)
    (newValuesAttempt : Except Exc (List (String × List Int)))
    (logEvent : ChangedFields → Except Exc Unit)
    (instanceStrAttempt : Except Exc String) (s : Settings) :
    Option String × Except Exc Unit :=
  let body : Except Exc Unit :=
    match m2m_changed_fields cache action className pkStr m2mName
        newValuesAttempt with
    | Except.error e => Except.error e
    | Except.ok cf => logEvent cf
  match body with
  | Except.ok _ => (Option.none, Except.ok ())
  | Except.error e =>
    let r := handle_flow_exception instanceStrAttempt ("m2m_changed") s e
    (some r.1, r.2)

/-- A user object as touched by `get_current_user_details`: its `id` and `pk`
attributes. -/
structure PyUser where
  id : Int
  pk : Int

/-- The body of `get_current_user_details` (crud_flows.py:28-40) before the
`contextlib.suppress(Exception)` is applied: resolve the ambient user
(`Option.none` covers both Python `None` and `AnonymousUser`), optionally
re-validate it against the identity store, and produce
`(user.id, str(user.pk))`.  Any step may raise. -/
def get_current_user_details_attempt (s : Settings)
    (getCurrentUser : Except Exc (Option PyUser))
    (userLookup : Int → Except Exc PyUser) : Except Exc (PyVal × String) :=
  match getCurrentUser with
  | Except.error e => Except.error e
  | Except.ok Option.none => Except.ok (PyVal.pyStr (""), "")
  | Except.ok (some user) =>
    if check_if_request_user_exists s then
      match userLookup user.pk with
      | Except.error e => Except.error e
      | Except.ok user2 => Except.ok (PyVal.pyInt user2.id, toString user2.pk)
    else Except.ok (PyVal.pyInt user.id, toString user.pk)

/-- Embeds `get_current_user_details` (crud_flows.py:28-40): the attempt under
`contextlib.suppress(Exception)` — any exception leaves the initial empty
actor fields `("", "")` in place. -/
def get_current_user_details (s : Settings)
    (getCurrentUser : Except Exc (Option PyUser))
    (userLookup : Int → Except Exc PyUser) : PyVal × String :=
  match get_current_user_details_attempt s getCurrentUser userLookup with
  | Except.ok r => r
  | Except.error _ => (PyVal.pyStr (""), "")

/-! Concrete instances used to evaluate the embedded code on explicit inputs. -/

/-- Default settings: both easy-audit settings absent, USE_TZ on. -/
def sDefault : Settings :=
  { propagateExceptions := Option.none, checkRequestUserExists := Option.none,
    useTz := true }

/-- Settings with exception propagation switched on. -/
def sPropagate : Settings :=
  { propagateExceptions := some true, checkRequestUserExists := Option.none,
    useTz := true }

/-- Environment without pint installed. -/
def envNoPint : Env :=
  { pintInstalled := false,
    pintTo := fun _ _ _ => Except.error (Exc.other ("unreachable")) }

/-- Environment with pint installed whose unit conversion raises
DimensionalityError (incompatible units). -/
def envPintFail : Env :=
  { pintInstalled := true,
    pintTo := fun _ _ _ => Except.error (Exc.other ("DimensionalityError")) }

/-- A plain scalar field named "name" with no default and no units. -/
def fieldName : DField :=
  { name := "name", isDateTime := false, defaultVal := Option.none,
    units := Option.none }

/-- A plain scalar field named "a". -/
def fieldA : DField :=
  { name := "a", isDateTime := false, defaultVal := Option.none,
    units := Option.none }

/-- A plain scalar field named "b". -/
def fieldB : DField :=
  { name := "b", isDateTime := false, defaultVal := Option.none,
    units := Option.none }

/-- A DateTimeField named "created_at". -/
def fieldDt : DField :=
  { name := "created_at", isDateTime := true, defaultVal := Option.none,
    units := Option.none }

/-- A pint-backed field whose declared units are meters. -/
def qField : DField :=
  { name := "weight", isDateTime := false, defaultVal := Option.none,
    units := some ("meter") }

/-- A scalar field with a declared default value. -/
def fieldWithDefault : DField :=
  { name := "status", isDateTime := false,
    defaultVal := some (PyVal.pyStr ("new")), units := Option.none }

/-- A scalar field named "note". -/
def noteField : DField :=
  { name := "note", isDateTime := false, defaultVal := Option.none,
    units := Option.none }

/-- An instance whose every attribute reads as the string "Alice". -/
def objAlice : PyObj := ⟨fun _ => Except.ok (PyVal.pyStr ("Alice"))⟩

/-- A model with the single field "name", valued "Alice", declaring no
audit-field attributes. -/
def modelAlice : DModel :=
  { metaGetFields := [fieldName], metaFields := [fieldName],
    auditLogFields := Option.none, auditLogFieldsExclude := Option.none,
    obj := objAlice }

/-- Old state for the C3 scenario: a = "x", b = "y1". -/
def objOldC3 : PyObj :=
  ⟨fun nm => if nm == "b" then Except.ok (PyVal.pyStr ("y1"))
   else Except.ok (PyVal.pyStr ("x"))⟩

/-- New state for the C3 scenario: a = "x", b = "y2". -/
def objNewC3 : PyObj :=
  ⟨fun nm => if nm == "b" then Except.ok (PyVal.pyStr ("y2"))
   else Except.ok (PyVal.pyStr ("x"))⟩

/-- A model declaring the explicit inclusion list \x7b"a"\x7d while carrying the
two fields a and b; old state. -/
def modelOldC3 : DModel :=
  { metaGetFields := [fieldA, fieldB], metaFields := [fieldA, fieldB],
    auditLogFields := some ["a"], auditLogFieldsExclude := Option.none,
    obj := objOldC3 }

/-- The same model type in its new state. -/
def modelNewC3 : DModel :=
  { metaGetFields := [fieldA, fieldB], metaFields := [fieldA, fieldB],
    auditLogFields := some ["a"], auditLogFieldsExclude := Option.none,
    obj := objNewC3 }

/-- An instance whose datetime attribute is aware: wall-clock 120 at UTC+60
(instant 60). -/
def dtObj1 : PyObj := ⟨fun _ => Except.ok (PyVal.dtAware 120 60)⟩

/-- An instance whose datetime attribute is aware: wall-clock 180 at UTC+120
(the same instant 60). -/
def dtObj2 : PyObj := ⟨fun _ => Except.ok (PyVal.dtAware 180 120)⟩

/-- An instance holding a pint quantity of 5 kg. -/
def qObj : PyObj := ⟨fun _ => Except.ok (PyVal.quantity 5 ("kg"))⟩

/-- An instance whose attribute read raises ObjectDoesNotExist. -/
def odeObj : PyObj := ⟨fun _ => Except.error Exc.objectDoesNotExist⟩

/-- An instance whose attribute is Python None. -/
def nullObj : PyObj := ⟨fun _ => Except.ok PyVal.pyNone⟩

/-- An instance whose attribute is the literal string "None". -/
def noneStrObj : PyObj := ⟨fun _ => Except.ok (PyVal.pyStr ("None"))⟩

/-- A one-field model (field "note") whose value is Python None. -/
def modelNull : DModel :=
  { metaGetFields := [noteField], metaFields := [noteField],
    auditLogFields := Option.none, auditLogFieldsExclude := Option.none,
    obj := nullObj }

/-- A one-field model (field "note") whose value is the string "None". -/
def modelNoneStr : DModel :=
  { metaGetFields := [noteField], metaFields := [noteField],
    auditLogFields := Option.none, auditLogFieldsExclude := Option.none,
    obj := noneStrObj }

/-! Helper lemmas about the delta loop, shared by several claims. -/

/-- Helper: when every listed field reads successfully to Python-equal values
on both sides, the delta loop produces no entries. -/
theorem model_delta_entries_of_eq (s : Settings) (env : Env) (o n : PyObj) :
    ∀ l : List DField,
    (∀ f ∈ l, ∃ v w, get_field_value s env o f = Except.ok v ∧
        get_field_value s env n f = Except.ok w ∧ pyEq v w = true) →
    model_delta_entries s env o n l = Except.ok [] := by
  intro l
  induction l with
  | nil => intro _; rfl
  | cons f fs ih =>
    intro h
    obtain ⟨v, w, hv, hw, hvw⟩ := h f (List.mem_cons_self f fs)
    have hrest := ih (fun g hg => h g (List.mem_cons_of_mem f hg))
    simp [model_delta_entries, hv, hw, hrest, hvw]

/-- Helper: every entry the delta loop emits comes from a listed field whose
two reads succeeded with Python-unequal values, and records their
`smart_str` forms. -/
theorem model_delta_entries_sound (s : Settings) (env : Env) (o n : PyObj) :
    ∀ (l : List DField) (d : List (String × String × String)),
    model_delta_entries s env o n l = Except.ok d →
    ∀ k a b, (k, a, b) ∈ d →
    ∃ f ∈ l, f.name = k ∧ ∃ v w, get_field_value s env o f = Except.ok v ∧
      get_field_value s env n f = Except.ok w ∧ pyEq v w = false ∧
      a = smartStr v ∧ b = smartStr w := by
  intro l
  induction l with
  | nil =>
    intro d hd k a b hk
    simp only [model_delta_entries, Except.ok.injEq] at hd
    subst hd
    simp at hk
  | cons f fs ih =>
    intro d hd k a b hk
    simp only [model_delta_entries] at hd
    cases hv : get_field_value s env o f <;> rw [hv] at hd
    case error e => exact absurd hd (by simp)
    case ok v =>
      cases hw : get_field_value s env n f <;> rw [hw] at hd
      case error e => exact absurd hd (by simp)
      case ok w =>
        cases hr : model_delta_entries s env o n fs <;> rw [hr] at hd
        case error e => exact absurd hd (by simp)
        case ok rest =>
          rw [Except.ok.injEq] at hd
          cases hvw : pyEq v w with
          | true =>
            rw [hvw] at hd
            simp only [if_true] at hd
            subst hd
            obtain ⟨g, hg, hrest⟩ := ih rest hr k a b hk
            exact ⟨g, List.mem_cons_of_mem f hg, hrest⟩
          | false =>
            rw [hvw] at hd
            simp only [if_false, Bool.false_eq_true] at hd
            subst hd
            rcases List.mem_cons.mp hk with hhead | htail
            · obtain ⟨h1, h2, h3⟩ := Prod.mk.injEq .. ▸ hhead
              refine ⟨f, List.mem_cons_self f fs, ?_⟩
              · cases hhead
                exact ⟨rfl, v, w, hv, hw, hvw, rfl, rfl⟩
            · obtain ⟨g, hg, hrest⟩ := ih rest hr k a b htail
              exact ⟨g, List.mem_cons_of_mem f hg, hrest⟩

/-- Helper: every listed field whose two reads succeed with Python-unequal
values contributes its entry to the delta loop's output. -/
theorem model_delta_entries_complete (s : Settings) (env : Env) (o n : PyObj) :
    ∀ (l : List DField) (d : List (String × String × String)),
    model_delta_entries s env o n l = Except.ok d →
    ∀ f ∈ l, ∀ v w, get_field_value s env o f = Except.ok v →
      get_field_value s env n f = Except.ok w → pyEq v w = false →
      (f.name, smartStr v, smartStr w) ∈ d := by
  intro l
  induction l with
  | nil =>
    intro d _ f hf
    simp at hf
  | cons g gs ih =>
    intro d hd f hf v w hv hw hvw
    simp only [model_delta_entries] at hd
    cases hv2 : get_field_value s env o g <;> rw [hv2] at hd
    case error e => exact absurd hd (by simp)
    case ok v2 =>
      cases hw2 : get_field_value s env n g <;> rw [hw2] at hd
      case error e => exact absurd hd (by simp)
      case ok w2 =>
        cases hr : model_delta_entries s env o n gs <;> rw [hr] at hd
        case error e => exact absurd hd (by simp)
        case ok rest =>
          rw [Except.ok.injEq] at hd
          rcases List.mem_cons.mp hf with hfg | hftail
          · subst hfg
            rw [hv2] at hv
            rw [hw2] at hw
            rw [Except.ok.injEq] at hv hw
            subst hv
            subst hw
            rw [hvw] at hd
            simp only [if_false, Bool.false_eq_true] at hd
            subst hd
            exact List.mem_cons_self _ _
          · have hmem := ih rest hr f hftail v w hv hw hvw
            subst hd
            cases pyEq v2 w2
            · simp only [if_false, Bool.false_eq_true]
              exact List.mem_cons_of_mem _ hmem
            · simpa using hmem

/-- C2: for every pair of old and new states whose values, as normalized by
`get_field_value`, are Python-equal on every field `model_delta` iterates,
the delta is `None` — and never the empty mapping `some []` — and an entry
appears only for a field whose normalized old and new values differ. -/
theorem C2_model_delta_noop :
    (∀ (s : Settings) (env : Env) (old_model new_model : DModel),
      (∀ f ∈ delta_fields new_model, ∃ v w,
          get_field_value s env old_model.obj f = Except.ok v ∧
          get_field_value s env new_model.obj f = Except.ok w ∧
          pyEq v w = true) →
      model_delta s env old_model new_model = Except.ok Option.none)
    ∧ (∀ (s : Settings) (env : Env) (old_model new_model : DModel),
      model_delta s env old_model new_model ≠ Except.ok (some []))
    ∧ (∀ (s : Settings) (env : Env) (old_model new_model : DModel)
        (d : List (String × String × String)),
      model_delta s env old_model new_model = Except.ok (some d) →
      ∀ k a b, (k, a, b) ∈ d → ∃ f ∈ delta_fields new_model, f.name = k ∧
        ∃ v w, get_field_value s env old_model.obj f = Except.ok v ∧
          get_field_value s env new_model.obj f = Except.ok w ∧
          pyEq v w = false) := by
  refine ⟨?_, ?_, ?_⟩
  · intro s env old_model new_model h
    have he := model_delta_entries_of_eq s env old_model.obj new_model.obj
      (delta_fields new_model) h
    simp [model_delta, he]
  · intro s env old_model new_model hcontra
    simp only [model_delta] at hcontra
    cases hr : model_delta_entries s env old_model.obj new_model.obj
        (delta_fields new_model) <;> rw [hr] at hcontra
    case error e => exact absurd hcontra (by simp)
    case ok entries =>
      rw [Except.ok.injEq] at hcontra
      cases hne : entries.isEmpty <;> rw [hne] at hcontra
      · simp only [if_false, Bool.false_eq_true] at hcontra
        rw [Option.some.injEq] at hcontra
        subst hcontra
        simp at hne
      · simp at hcontra
  · intro s env old_model new_model d hd k a b hk
    simp only [model_delta] at hd
    cases hr : model_delta_entries s env old_model.obj new_model.obj
        (delta_fields new_model) <;> rw [hr] at hd
    case error e => exact absurd hd (by simp)
    case ok entries =>
      rw [Except.ok.injEq] at hd
      cases hne : entries.isEmpty <;> rw [hne] at hd
      · simp only [if_false, Bool.false_eq_true, Option.some.injEq] at hd
        subst hd
        obtain ⟨f, hf, hname, v, w, hv, hw, hvw, _, _⟩ :=
          model_delta_entries_sound s env old_model.obj new_model.obj
            (delta_fields new_model) entries hr k a b hk
        exact ⟨f, hf, hname, v, w, hv, hw, hvw⟩
      · simp at hd

/-- C2 witness: a no-op save on the concrete one-field "Alice" model yields
`None`. -/
theorem C2_witness :
    model_delta sDefault envNoPint modelAlice modelAlice =
      Except.ok Option.none := by
  refine C2_model_delta_noop.1 sDefault envNoPint modelAlice modelAlice ?_
  intro f hf
  have hf2 : f = fieldName := by
    simpa [delta_fields, modelAlice] using hf
  subst hf2
  exact ⟨PyVal.pyStr ("Alice"), PyVal.pyStr ("Alice"), rfl, rfl, by decide⟩

/-- C3 counterexample: a model declaring the inclusion list \x7b"a"\x7d still has
the non-included, non-excluded field "b" appear in its delta — `model_delta`
never consults the Field Selector's inclusion list. -/
theorem C3_counterexample :
    model_delta sDefault envNoPint modelOldC3 modelNewC3 =
      Except.ok (some [("b", "y1", "y2")])
    ∧ modelNewC3.auditLogFields = some ["a"]
    ∧ ("b") ∉ get_audit_log_fields modelNewC3 := by
  refine ⟨rfl, rfl, by decide⟩

/-- C3 as amended: the set of fields `model_delta` compares is exactly
`_meta.get_fields()` filtered by the exclusion attribute (`delta_fields`),
independent of any declared inclusion list: every delta entry comes from such
a field with differing normalized values, and every such differing field
produces an entry. -/
theorem C3_delta_fields_characterization :
    ∀ (s : Settings) (env : Env) (old_model new_model : DModel)
      (d : List (String × String × String)),
    model_delta s env old_model new_model = Except.ok (some d) →
    (∀ k a b, (k, a, b) ∈ d → ∃ f ∈ delta_fields new_model, f.name = k ∧
        ∃ v w, get_field_value s env old_model.obj f = Except.ok v ∧
          get_field_value s env new_model.obj f = Except.ok w ∧
          pyEq v w = false ∧ a = smartStr v ∧ b = smartStr w)
    ∧ (∀ f ∈ delta_fields new_model, ∀ v w,
        get_field_value s env old_model.obj f = Except.ok v →
        get_field_value s env new_model.obj f = Except.ok w →
        pyEq v w = false →
        (f.name, smartStr v, smartStr w) ∈ d) := by
  intro s env old_model new_model d hd
  simp only [model_delta] at hd
  cases hr : model_delta_entries s env old_model.obj new_model.obj
      (delta_fields new_model) <;> rw [hr] at hd
  case error e => exact absurd hd (by simp)
  case ok entries =>
    rw [Except.ok.injEq] at hd
    cases hne : entries.isEmpty <;> rw [hne] at hd
    · simp only [if_false, Bool.false_eq_true, Option.some.injEq] at hd
      subst hd
      exact ⟨model_delta_entries_sound s env old_model.obj new_model.obj
          (delta_fields new_model) entries hr,
        model_delta_entries_complete s env old_model.obj new_model.obj
          (delta_fields new_model) entries hr⟩
    · simp at hd

/-- C3 witness: the characterization applied to the concrete two-field model
locates field "b" behind the delta entry ("b", "y1", "y2"). -/
theorem C3_witness :
    ∃ f ∈ delta_fields modelNewC3, f.name = "b" ∧ ∃ v w,
      get_field_value sDefault envNoPint modelOldC3.obj f = Except.ok v ∧
      get_field_value sDefault envNoPint modelNewC3.obj f = Except.ok w ∧
      pyEq v w = false ∧ ("y1") = smartStr v ∧ ("y2") = smartStr w := by
  exact (C3_delta_fields_characterization sDefault envNoPint modelOldC3
      modelNewC3 [("b", "y1", "y2")] rfl).1 ("b") ("y1") ("y2")
    (List.mem_singleton.mpr rfl)

/-- C1: in every dispatch flow (update, create, delete, relationship-change),
a failure of the guarded body — the sink write / event assembly (`logEvent`),
or for the relationship flow also the member-value computation — is logged
(a log line is produced even though building its instance context may itself
fail) and then swallowed exactly when the propagation flag is off, which is
its default, and re-raised as the same exception when the flag is on. -/
theorem C1_flow_exception_policy :
    ∀ (s : Settings) (att : Except Exc String) (e : Exc) (cache : Cache)
      (action className pkStr m2mName : String)
      (newValues : List (String × List Int))
      (logEv : ChangedFields → Except Exc Unit) (b : Option Bool) (tz : Bool),
    (pre_save_crud_flow (Except.error e) att s).2 =
        (if should_propagate_exceptions s then Except.error e else Except.ok ())
    ∧ (pre_save_crud_flow (Except.error e) att s).1.isSome = true
    ∧ (post_save_crud_flow (Except.error e) att s).2 =
        (if should_propagate_exceptions s then Except.error e else Except.ok ())
    ∧ (post_save_crud_flow (Except.error e) att s).1.isSome = true
    ∧ (post_delete_crud_flow (Except.error e) att s).2 =
        (if should_propagate_exceptions s then Except.error e else Except.ok ())
    ∧ (post_delete_crud_flow (Except.error e) att s).1.isSome = true
    ∧ (m2m_changed_crud_flow cache action className pkStr m2mName
          (Except.ok newValues) (fun _ => Except.error e) att s).2 =
        (if should_propagate_exceptions s then Except.error e else Except.ok ())
    ∧ (m2m_changed_crud_flow cache action className pkStr m2mName
          (Except.ok newValues) (fun _ => Except.error e) att s).1.isSome = true
    ∧ should_propagate_exceptions
        { propagateExceptions := Option.none, checkRequestUserExists := b,
          useTz := tz } = false
    ∧ ((action == "post_clear") = false →
        (m2m_changed_crud_flow cache action className pkStr m2mName
            (Except.error e) logEv att s).2 =
          (if should_propagate_exceptions s then Except.error e
           else Except.ok ())) := by
  intro s att e cache action className pkStr m2mName newValues logEv b tz
  refine ⟨?_, ?_, ?_, ?_, ?_, ?_, ?_, ?_, ?_, ?_⟩
  · simp [pre_save_crud_flow, handle_flow_exception]
  · simp [pre_save_crud_flow, handle_flow_exception]
  · simp [post_save_crud_flow, handle_flow_exception]
  · simp [post_save_crud_flow, handle_flow_exception]
  · simp [post_delete_crud_flow, handle_flow_exception]
  · simp [post_delete_crud_flow, handle_flow_exception]
  · cases hpc : action == "post_clear" <;>
      simp [m2m_changed_crud_flow, m2m_changed_fields, hpc,
        handle_flow_exception]
  · cases hpc : action == "post_clear" <;>
      simp [m2m_changed_crud_flow, m2m_changed_fields, hpc,
        handle_flow_exception]
  · rfl
  · intro hpc
    simp [m2m_changed_crud_flow, m2m_changed_fields, hpc,
      handle_flow_exception]

/-- C1 witness: with propagation enabled, a failing member-value computation
in the relationship flow re-raises the injected exception to the caller. -/
theorem C1_witness :
    (m2m_changed_crud_flow [] ("post_add") ("Team") ("1") ("members")
        (Except.error (Exc.other ("boom"))) (fun _ => Except.ok ())
        (Except.ok ("")) sPropagate).2 = Except.error (Exc.other ("boom")) := by
  have h := (C1_flow_exception_policy sPropagate (Except.ok (""))
      (Exc.other ("boom")) [] ("post_add") ("Team") ("1") ("members") []
      (fun _ => Except.ok ()) Option.none true).2.2.2.2.2.2.2.2.2 (by decide)
  simpa [should_propagate_exceptions, sPropagate] using h

/-- C5 as amended: a `post_clear` relationship change performs no snapshot
cache lookup (the changed-fields result is the same for every cache state)
and the logged `changed_fields` payload is the literal empty list — it has no
old/new member-list structure at all. -/
theorem C5_post_clear_no_lookup :
    ∀ (cache c2 : Cache) (className pkStr m2mName : String)
      (nva : Except Exc (List (String × List Int))),
    m2m_changed_fields cache ("post_clear") className pkStr m2mName nva =
        Except.ok ChangedFields.emptyList
    ∧ m2m_changed_fields cache ("post_clear") className pkStr m2mName nva =
        m2m_changed_fields c2 ("post_clear") className pkStr m2mName nva := by
  intro cache c2 className pkStr m2mName nva
  constructor <;> simp [m2m_changed_fields]

/-- C5 counterexample: on `post_clear` the flow's payload is the bare empty
list, not a relationship delta reporting old = [] and new = [] (the shape the
non-clear branch produces). -/
theorem C5_counterexample :
    m2m_changed_fields [] ("post_clear") ("Team") ("1") ("members")
        (Except.ok []) = Except.ok ChangedFields.emptyList
    ∧ ChangedFields.emptyList ≠ ChangedFields.deltaJson ("members") [] [] := by
  exact ⟨rfl, by decide⟩

/-- C8: actor resolution never lets an exception escape: a failing ambient
lookup, an absent/anonymous user, or a failing re-validation (which is
enabled by default) all leave the actor fields empty, and any exception in
the attempt collapses to the empty actor fields. -/
theorem C8_actor_resolution_defensive :
    ∀ (s : Settings) (userLookup : Int → Except Exc PyUser) (e : Exc)
      (g : Except Exc (Option PyUser)) (u : PyUser) (b : Option Bool)
      (tz : Bool),
    get_current_user_details s (Except.error e) userLookup =
        (PyVal.pyStr (""), "")
    ∧ get_current_user_details s (Except.ok Option.none) userLookup =
        (PyVal.pyStr (""), "")
    ∧ (check_if_request_user_exists s = true →
        userLookup u.pk = Except.error e →
        get_current_user_details s (Except.ok (some u)) userLookup =
          (PyVal.pyStr (""), ""))
    ∧ (get_current_user_details_attempt s g userLookup = Except.error e →
        get_current_user_details s g userLookup = (PyVal.pyStr (""), ""))
    ∧ check_if_request_user_exists
        { propagateExceptions := b, checkRequestUserExists := Option.none,
          useTz := tz } = true := by
  intro s userLookup e g u b tz
  refine ⟨?_, ?_, ?_, ?_, ?_⟩
  · simp [get_current_user_details, get_current_user_details_attempt]
  · simp [get_current_user_details, get_current_user_details_attempt]
  · intro hcheck hlookup
    simp [get_current_user_details, get_current_user_details_attempt, hcheck,
      hlookup]
  · intro hfail
    simp [get_current_user_details, hfail]
  · rfl

/-- C8 witness: an ambient user that fails re-validation (deleted from the
identity store) yields empty actor fields under default settings. -/
theorem C8_witness :
    get_current_user_details sDefault
        (Except.ok (some { id := 7, pk := 7 }))
        (fun _ => Except.error Exc.objectDoesNotExist) =
      (PyVal.pyStr (""), "") := by
  exact (C8_actor_resolution_defensive sDefault
      (fun _ => Except.error Exc.objectDoesNotExist) Exc.objectDoesNotExist
      (Except.ok (some { id := 7, pk := 7 })) { id := 7, pk := 7 }
      Option.none true).2.2.1 rfl rfl

/-! Helper lemmas about strings, for the cache-key claims. -/

/-- Helper: `String.data` distributes over append. -/
theorem data_append : ∀ (a b : String), (a ++ b).data = a.data ++ b.data
  | ⟨_⟩, ⟨_⟩ => rfl

/-- Helper: strings with equal character data are equal. -/
theorem str_data_inj : ∀ {a b : String}, a.data = b.data → a = b
  | ⟨_⟩, ⟨_⟩, h => congrArg String.mk h

/-- Helper: a Boolean prefix of a list only contains the list's elements. -/
theorem mem_of_isPrefixOf :
    ∀ (p l : List Char), p.isPrefixOf l = true → ∀ c ∈ p, c ∈ l := by
  intro p l hp c hc
  have h2 : p <+: l := by simpa using hp
  obtain ⟨t, rfl⟩ := h2
  exact List.mem_append_left t hc

/-- Helper: a string with no underscore is unchanged by the lifecycle-tag
stripping of `_cache_key`. -/
theorem strip_phase_of_no_underscore (a : String) (h : ('_') ∉ a.data) :
    strip_phase a = a := by
  have hpre : (("pre_" : String)).data.isPrefixOf a.data = false := by
    cases hp : (("pre_" : String)).data.isPrefixOf a.data
    · rfl
    · exact absurd (mem_of_isPrefixOf _ _ hp ('_') (by decide)) h
  have hpost : (("post_" : String)).data.isPrefixOf a.data = false := by
    cases hp : (("post_" : String)).data.isPrefixOf a.data
    · rfl
    · exact absurd (mem_of_isPrefixOf _ _ hp ('_') (by decide)) h
  simp [strip_phase, removePre, hpre, hpost]

/-- Helper: concatenation around an underscore separator is injective when
the left parts contain no underscore. -/
theorem underscore_sep_inj :
    ∀ (a b r s : List Char), ('_') ∉ a → ('_') ∉ b →
    a ++ ('_') :: r = b ++ ('_') :: s → a = b ∧ r = s := by
  intro a
  induction a with
  | nil =>
    intro b r s _ hb h
    cases b with
    | nil =>
      simp at h
      exact ⟨rfl, h⟩
    | cons y ys =>
      simp at h
      obtain ⟨h1, _⟩ := h
      subst h1
      exact absurd (List.mem_cons_self _ _) hb
  | cons x xs ih =>
    intro b r s ha hb h
    cases b with
    | nil =>
      simp at h
      obtain ⟨h1, _⟩ := h
      subst h1
      exact absurd (List.mem_cons_self _ _) ha
    | cons y ys =>
      simp at h
      obtain ⟨hxy, h2⟩ := h
      have hxs : ('_') ∉ xs := fun hm => ha (List.mem_cons_of_mem x hm)
      have hys : ('_') ∉ ys := fun hm => hb (List.mem_cons_of_mem y hm)
      obtain ⟨he, hr⟩ := ih ys r s hxs hys h2
      exact ⟨by rw [hxy, he], hr⟩

/-- Helper: the character data of a cache key is the underscore-separated
concatenation of its components (with the phase stripped). -/
theorem cache_key_data (c p f a : String) :
    (cache_key c p f a).data =
      c.data ++ ('_') :: (p.data ++ ('_') :: (f.data ++ ('_') ::
        (strip_phase a).data)) := by
  simp [cache_key, data_append, List.append_assoc]

/-- C10 counterexample: two distinct (type, instance, field, phase) tuples
with underscores inside their components produce the same cache key, so
distinct entities can collide in the snapshot cache. -/
theorem C10_counterexample :
    cache_key ("Team") ("1") ("a_b") ("x") =
        cache_key ("Team") ("1_a") ("b") ("x")
    ∧ ((("Team"), ("1"), ("a_b"), ("x")) :
        String × String × String × String) ≠
      (("Team"), ("1_a"), ("b"), ("x")) := by
  exact ⟨by decide, by decide⟩

/-- C10 as amended: cache keys are the underscore-join of class name, pk,
field name and stripped phase; distinct tuples give distinct keys provided
no component contains an underscore (with underscores inside components the
join is ambiguous and distinct tuples can collide). -/
theorem C10_cache_key_injective :
    ∀ (c1 p1 f1 a1 c2 p2 f2 a2 : String),
    ('_') ∉ c1.data → ('_') ∉ p1.data → ('_') ∉ f1.data → ('_') ∉ a1.data →
    ('_') ∉ c2.data → ('_') ∉ p2.data → ('_') ∉ f2.data → ('_') ∉ a2.data →
    cache_key c1 p1 f1 a1 = cache_key c2 p2 f2 a2 →
    c1 = c2 ∧ p1 = p2 ∧ f1 = f2 ∧ a1 = a2 := by
  intro c1 p1 f1 a1 c2 p2 f2 a2 hc1 hp1 hf1 ha1 hc2 hp2 hf2 ha2 hk
  have hd := congrArg String.data hk
  rw [cache_key_data, cache_key_data, strip_phase_of_no_underscore a1 ha1,
    strip_phase_of_no_underscore a2 ha2] at hd
  obtain ⟨e1, hd2⟩ := underscore_sep_inj c1.data c2.data _ _ hc1 hc2 hd
  obtain ⟨e2, hd3⟩ := underscore_sep_inj p1.data p2.data _ _ hp1 hp2 hd2
  obtain ⟨e3, e4⟩ := underscore_sep_inj f1.data f2.data _ _ hf1 hf2 hd3
  exact ⟨str_data_inj e1, str_data_inj e2, str_data_inj e3, str_data_inj e4⟩

/-- C10 witness: the injectivity theorem applied at concrete underscore-free
components. -/
theorem C10_witness :
    (("Team") : String) = ("Team") ∧ (("1") : String) = ("1") ∧
    (("members") : String) = ("members") ∧ (("add") : String) = ("add") := by
  exact C10_cache_key_injective ("Team") ("1") ("members") ("add") ("Team")
    ("1") ("members") ("add") (by decide) (by decide) (by decide) (by decide)
    (by decide) (by decide) (by decide) (by decide) rfl

/-- C4 as amended: a snapshot captured at a "pre_" phase is returned unchanged
by a consume at the paired "post_" phase (the stripped keys agree), while
consuming a key that was never captured (or has expired) yields Python None
— not an empty list, and not an error. -/
theorem C4_snapshot_roundtrip :
    (∀ (c : Cache) (className pkStr fName aPre aPost : String)
        (vs : List Int),
      strip_phase aPre = strip_phase aPost →
      get_cached_m2m_field
          (cache_m2m_field c className pkStr aPre [(fName, vs)])
          className pkStr [fName] aPost = [(fName, some vs)])
    ∧ ∀ (className pkStr fName action : String),
      get_cached_m2m_field [] className pkStr [fName] action =
        [(fName, Option.none)] := by
  constructor
  · intro c className pkStr fName aPre aPost vs hstrip
    have hkey : cache_key className pkStr fName aPre =
        cache_key className pkStr fName aPost := by
      simp [cache_key, hstrip]
    simp [cache_m2m_field, get_cached_m2m_field, cache_set, hkey, cache_get]
  · intro className pkStr fName action
    rfl

/-- C4 counterexample: consuming a never-captured key returns Python None,
not the empty prior-value list the claim states. -/
theorem C4_counterexample :
    get_cached_m2m_field [] ("Team") ("1") [("members+__id")] ("post_add") =
        [(("members+__id"), Option.none)]
    ∧ (Option.none : Option (List Int)) ≠ some [] := by
  exact ⟨rfl, by simp⟩

/-- C4 witness: a concrete capture at `pre_add` consumed at `post_add`
returns the captured member list. -/
theorem C4_witness :
    get_cached_m2m_field
        (cache_m2m_field [] ("Team") ("1") ("pre_add")
          [(("members+__id"), [1, 2])])
        ("Team") ("1") [("members+__id")] ("post_add") =
      [(("members+__id"), some [1, 2])] := by
  exact C4_snapshot_roundtrip.1 [] ("Team") ("1") ("members+__id")
    ("pre_add") ("post_add") [1, 2] (by decide)

/-- C6: with USE_TZ enabled, two aware datetimes that denote the same instant
but carry different zone offsets normalize, through the DateTimeField branch
of `get_field_value`, to the same naive-UTC value. -/
theorem C6_aware_datetime_equal_instant :
    ∀ (s : Settings) (env : Env) (o1 o2 : PyObj) (f : DField)
      (n1 off1 n2 off2 : Int),
    s.useTz = true → f.isDateTime = true →
    o1.readAttr f.name = Except.ok (PyVal.dtAware n1 off1) →
    o2.readAttr f.name = Except.ok (PyVal.dtAware n2 off2) →
    n1 - off1 = n2 - off2 →
    get_field_value s env o1 f = Except.ok (PyVal.dtNaive (n1 - off1))
    ∧ get_field_value s env o1 f = get_field_value s env o2 f := by
  intro s env o1 o2 f n1 off1 n2 off2 htz hdt h1 h2 hinst
  have g1 : get_field_value s env o1 f =
      Except.ok (PyVal.dtNaive (n1 - off1)) := by
    simp [get_field_value, hdt, dt_read, h1, dateTimeFieldToPython, htz,
      isAware, makeNaiveUtc, bne_iff_ne]
  have g2 : get_field_value s env o2 f =
      Except.ok (PyVal.dtNaive (n2 - off2)) := by
    simp [get_field_value, hdt, dt_read, h2, dateTimeFieldToPython, htz,
      isAware, makeNaiveUtc, bne_iff_ne]
  exact ⟨g1, by rw [g1, g2, hinst]⟩

/-- C6 witness: wall-clock 120 at offset +60 and wall-clock 180 at offset
+120 (the same instant) normalize to the same naive value. -/
theorem C6_witness :
    get_field_value sDefault envNoPint dtObj1 fieldDt =
        Except.ok (PyVal.dtNaive 60)
    ∧ get_field_value sDefault envNoPint dtObj1 fieldDt =
        get_field_value sDefault envNoPint dtObj2 fieldDt := by
  exact C6_aware_datetime_equal_instant sDefault envNoPint dtObj1 dtObj2
    fieldDt 120 60 180 120 rfl rfl rfl rfl (by decide)

/-- C7 counterexample: a pint quantity on a field whose declared units are
incompatible makes the conversion raise DimensionalityError, which
`get_field_value` propagates to its caller (only ObjectDoesNotExist is
caught). -/
theorem C7_counterexample :
    get_field_value sDefault envPintFail qObj qField =
      Except.error (Exc.other ("DimensionalityError")) := rfl

/-- C7 as amended: `get_field_value` swallows only the not-found condition —
an ObjectDoesNotExist read falls back to the field's declared default, or
None without one — and ordinary (non-quantity) values are coerced to their
best-effort string without raising; exceptions from the pint unit conversion
(or from interpreting an invalid temporal value) propagate. -/
theorem C7_only_doesnotexist_swallowed :
    ∀ (s : Settings) (env : Env) (obj : PyObj) (f : DField),
    (obj.readAttr f.name = Except.error Exc.objectDoesNotExist →
      get_field_value s env obj f =
        Except.ok (f.defaultVal.getD PyVal.pyNone))
    ∧ (f.isDateTime = false → env.pintInstalled = false →
      ∀ v, obj.readAttr f.name = Except.ok v →
      get_field_value s env obj f = Except.ok (PyVal.pyStr (smartStr v)))
    ∧ (f.isDateTime = false → env.pintInstalled = true →
      ∀ v, obj.readAttr f.name = Except.ok v → isQuantity v = false →
      get_field_value s env obj f = Except.ok (PyVal.pyStr (smartStr v))) := by
  intro s env obj f
  refine ⟨?_, ?_, ?_⟩
  · intro hread
    cases hdt : f.isDateTime
    · cases hpint : env.pintInstalled <;>
        simp [get_field_value, hdt, pint_read, hpint, hread]
    · simp [get_field_value, hdt, dt_read, hread]
  · intro hdt hpint v hread
    simp [get_field_value, hdt, pint_read, hpint, hread, smartStr]
  · intro hdt hpint v hread hq
    cases v <;> simp_all [get_field_value, pint_read, isQuantity, smartStr]

/-- C7 witness: an ObjectDoesNotExist read on a field with a declared default
yields that default. -/
theorem C7_witness :
    get_field_value sDefault envNoPint odeObj fieldWithDefault =
      Except.ok (PyVal.pyStr ("new")) := by
  exact (C7_only_doesnotexist_swallowed sDefault envNoPint odeObj
      fieldWithDefault).1 rfl

/-- C9 counterexample: on a scalar field, a Python None value and the literal
string "None" normalize to the identical value, and a state pair differing
exactly in that way yields no delta — the null sentinel is not distinct from
the string form of a real value. -/
theorem C9_counterexample :
    get_field_value sDefault envNoPint nullObj noteField =
        Except.ok (PyVal.pyStr ("None"))
    ∧ get_field_value sDefault envNoPint noneStrObj noteField =
        Except.ok (PyVal.pyStr ("None"))
    ∧ model_delta sDefault envNoPint modelNull modelNoneStr =
        Except.ok Option.none := ⟨rfl, rfl, rfl⟩

/-- C9 as amended: only the DateTimeField path preserves null as None, a
value distinct from every string; the scalar path coerces null to the string
"None", which the ordinary-equality comparison cannot distinguish from the
literal string "None". -/
theorem C9_null_normalization :
    ∀ (s : Settings) (env : Env) (obj : PyObj) (f : DField) (str : String),
    (f.isDateTime = true → obj.readAttr f.name = Except.ok PyVal.pyNone →
      get_field_value s env obj f = Except.ok PyVal.pyNone)
    ∧ PyVal.pyNone ≠ PyVal.pyStr str
    ∧ (f.isDateTime = false → env.pintInstalled = false →
      obj.readAttr f.name = Except.ok PyVal.pyNone →
      get_field_value s env obj f = Except.ok (PyVal.pyStr ("None"))) := by
  intro s env obj f str
  refine ⟨?_, by simp, ?_⟩
  · intro hdt hread
    simp [get_field_value, hdt, dt_read, hread, dateTimeFieldToPython]
  · intro hdt hpint hread
    simp [get_field_value, hdt, pint_read, hpint, hread, smartStr]

/-- C9 witness: a None-valued DateTimeField read stays None through
normalization. -/
theorem C9_witness :
    get_field_value sDefault envNoPint nullObj fieldDt =
      Except.ok PyVal.pyNone := by
  exact (C9_null_normalization sDefault envNoPint nullObj fieldDt ("")).1
    rfl rfl

end EasyAudit
